import Mathlib

/-
Verification development for `resolve.py`, an iterative DNS resolver.

The Python source is shallowly embedded: domain names are label lists,
responses are record triples (answer / authority / additional sections),
the process-wide `CACHE` dictionary is an association list threaded through
an explicit state, and the network is a script `Nat → Option Response`
giving the result of the n-th transport call (`none` models a timeout or
an I/O error of `dns.query.udp`).  The state also records, purely as
instrumentation, the sequence of transport calls made and the sequence of
cache-write operations executed; neither influences control flow.

Unbounded iteration (the `while True` loop of `lookup`, the nested
glueless-delegation recursion, and the CNAME chase of `collect_results`)
is modelled with a fuel parameter; running out of fuel yields `none`,
the model of nontermination.
-/

namespace Resolve

/-- A domain name: the label tuple of `dns.name.Name`, most specific label
first; an absolute name ends with the empty root label, e.g.
`["www", "example", "com", ""]`.  The Python code keys the cache by
`str(name)`; on the absolute names the resolver manipulates, `str` is
injective, so the model keys by the name itself. -/
structure Name where
  labels : List String
deriving DecidableEq, Repr

/-- The record types the source mentions (`dns.rdatatype` constants). -/
inductive RType
  | A
  | NS
  | CNAME
  | AAAA
  | MX
  | SOA
deriving DecidableEq, Repr

/-- One rdata, as carried inside an rrset. -/
inductive Rdata
  | a (address : String)
  | aaaa (address : String)
  | ns (target : Name)
  | cname (target : Name)
  | mx (preference : Nat) (exchange : Name)
  | soa
deriving DecidableEq, Repr

/-- The `rdtype` attribute of an individual rdata. -/
def Rdata.rdtype : Rdata → RType
  | .a _ => .A
  | .aaaa _ => .AAAA
  | .ns _ => .NS
  | .cname _ => .CNAME
  | .mx _ _ => .MX
  | .soa => .SOA

/-- The `target` attribute (NS and CNAME rdatas).  The source only reads it
from rdatas inside NS- or CNAME-typed rrsets; the default is never hit on
well-typed data. -/
def Rdata.target : Rdata → Name
  | .ns t => t
  | .cname t => t
  | _ => ⟨[]⟩

/-- The `address` attribute (A and AAAA rdatas); also what `str(rdata)`
prints for an address record. -/
def Rdata.address : Rdata → String
  | .a s => s
  | .aaaa s => s
  | _ => ""

/-- The `preference` attribute (MX rdatas). -/
def Rdata.preference : Rdata → Nat
  | .mx p _ => p
  | _ => 0

/-- The `exchange` attribute (MX rdatas). -/
def Rdata.exchange : Rdata → Name
  | .mx _ e => e
  | _ => ⟨[]⟩

/-- `str(name)`: labels joined by dots (the trailing empty label yields the
trailing dot of an absolute name). -/
def nameStr (n : Name) : String :=
  String.intercalate "." n.labels

/-- An rrset: a named, typed group of rdatas, as iterated by the source. -/
structure RRset where
  name : Name
  rdtype : RType
  rdatas : List Rdata
deriving DecidableEq, Repr

/-- A DNS message: the question it answers plus the three record sections
the source reads.  `dns.message.make_query` yields the question;
`dns.message.make_response` copies it and leaves all sections empty. -/
structure Response where
  question : Name × RType
  answer : List RRset
  authority : List RRset
  additional : List RRset
deriving DecidableEq, Repr

/-- `dns.message.make_response(outbound_query)`: a synthesized response
with empty sections. -/
def makeResponse (q : Name × RType) : Response :=
  { question := q, answer := [], authority := [], additional := [] }

/-- The ROOT_SERVERS tuple of the source (current as of 25 October 2018). -/
def ROOT_SERVERS : List String :=
  ["198.41.0.4",
   "199.9.14.201",
   "192.33.4.12",
   "199.7.91.13",
   "192.203.230.10",
   "192.5.5.241",
   "192.112.36.4",
   "198.97.190.53",
   "192.36.148.17",
   "192.58.128.30",
   "193.0.14.129",
   "199.7.83.42",
   "202.12.27.33"]

/-- Cache keys: `(str(target_name), qtype)` in the source. -/
abbrev CacheKey := Name × RType

/-- The `CACHE` dictionary, as an association list (first match wins on
reads; assignment replaces in place). -/
abbrev Cache := List (CacheKey × Response)

/-- `key in CACHE` / `CACHE[key]` read. -/
def cacheGet (c : Cache) (k : CacheKey) : Option Response :=
  match c with
  | [] => none
  | (k', v) :: rest => if k = k' then some v else cacheGet rest k

/-- `CACHE[key] = value`: replace if present, else append. -/
def cacheSet (c : Cache) (k : CacheKey) (v : Response) : Cache :=
  match c with
  | [] => [(k, v)]
  | (k', v') :: rest =>
    if k = k' then (k, v) :: rest else (k', v') :: cacheSet rest k v

/-- The network script: result of the n-th `dns.query.udp` call
(`none` = `dns.exception.Timeout` or `OSError`). -/
abbrev Net := Nat → Option Response

/-- Interpreter state: the shared cache, plus instrumentation — the log of
every cache assignment executed, the trace of every transport call
(server address, query name, query type) — and the network clock. -/
structure St where
  cache : Cache
  writes : List (CacheKey × Response)
  trace : List (String × Name × RType)
  clock : Nat
deriving DecidableEq, Repr

/-- The empty initial state (the module-level `CACHE = {}`). -/
def St0 : St := { cache := [], writes := [], trace := [], clock := 0 }

/-- Execute `CACHE[k] = v`, logging the write. -/
def stPut (st : St) (k : CacheKey) (v : Response) : St :=
  { st with cache := cacheSet st.cache k v, writes := st.writes ++ [(k, v)] }

/-- Record one `dns.query.udp` call and advance the network clock. -/
def stRecv (st : St) (addr : String) (q : Name × RType) : St :=
  { st with trace := st.trace ++ [(addr, q.1, q.2)], clock := st.clock + 1 }

/-- Lines 170-171: scan the answer rrsets for one with rdtype CNAME. -/
def hasCnameRRset : List RRset → Bool
  | [] => false
  | rr :: rest => if rr.rdtype = RType.CNAME then true else hasCnameRRset rest

/-- Lines 180-181: the first answer rrset with rdtype CNAME. -/
def firstCnameRRset : List RRset → Option RRset
  | [] => none
  | rr :: rest => if rr.rdtype = RType.CNAME then some rr else firstCnameRRset rest

/-- Lines 129-132 / 197-200: targets of all rdatas of the NS-typed rrsets,
in order. -/
def nsTargets : List RRset → List Name
  | [] => []
  | rr :: rest =>
    (if rr.rdtype = RType.NS then rr.rdatas.map Rdata.target else []) ++ nsTargets rest

/-- Lines 139-142 / 223-226: addresses of all rdatas of the A-typed rrsets,
in order. -/
def aAddresses : List RRset → List String
  | [] => []
  | rr :: rest =>
    (if rr.rdtype = RType.A then rr.rdatas.map Rdata.address else []) ++ aAddresses rest

/-- Lines 134-142: addresses found in the cache for a list of NS targets. -/
def cachedAddrs (c : Cache) : List Name → List String
  | [] => []
  | n :: rest =>
    (match cacheGet c (n, RType.A) with
     | some r => aAddresses r.answer
     | none => []) ++ cachedAddrs c rest

/-- Line 123-124: the suffixes `labels[i:]` for `i in range(len(labels))`,
most specific first. -/
def ancestorSuffixes : List String → List (List String)
  | [] => []
  | l :: t => (l :: t) :: ancestorSuffixes t

/-- Lines 123-145: walk the ancestor suffixes; at the first one with a
cached NS entry whose targets yield at least one cached address, stop with
those addresses; `none` when no ancestor does. -/
def findNS (c : Cache) : List (List String) → Option (List String)
  | [] => none
  | anc :: rest =>
    match cacheGet c (⟨anc⟩, RType.NS) with
    | none => findNS c rest
    | some r =>
      let addrs := cachedAddrs c (nsTargets r.answer)
      if addrs = [] then findNS c rest else some addrs

/-- Lines 119-148: the nameserver set a cache-missing lookup starts from
(`if not nameservers: nameservers = list(ROOT_SERVERS)`). -/
def initialNS (c : Cache) (target : Name) : List String :=
  match findNS c (ancestorSuffixes target.labels) with
  | some l => l
  | none => ROOT_SERVERS

/-- The nested address resolution used for glueless delegations
(line 222): in the source it is `lookup` itself at a smaller depth. -/
abbrev Sub := Name → St → Option (Response × St)

/-- Outcome of classifying one received response (one iteration of the
`for ns in nameservers` body after a successful transport call). -/
inductive AttemptRes
  | retn (r : Response)
  | redirect (current : Name) (ns : List String)
  | cont
  | exc
deriving DecidableEq, Repr

/-- Lines 210-217: walk the additional section; for each A-typed rrset take
the address of its first rdata (`additional[0]` raises IndexError on an
empty rrset — modelled as `.error`, with the cache writes made so far
retained) and cache the glue under `(rrset.name, A)` when absent. -/
def glueLoop (q : Name × RType) : List RRset → St → St × Except Unit (List String)
  | [], st => (st, .ok [])
  | rr :: rest, st =>
    if rr.rdtype = RType.A then
      match rr.rdatas with
      | [] => (st, .error ())
      | rd :: _ =>
        let st' :=
          if cacheGet st.cache (rr.name, RType.A) = none then
            stPut st (rr.name, RType.A) { makeResponse q with answer := [rr] }
          else st
        match glueLoop q rest st' with
        | (st'', .ok addrs) => (st'', .ok (rd.address :: addrs))
        | e => e
    else glueLoop q rest st

/-- Lines 219-230: glueless delegation — resolve each NS target's A records
through a nested lookup, stopping at the first target that yields at least
one address.  `none` propagates exhausted fuel of the nested lookup. -/
def gluelessLoop (sub : Sub) : List Name → St → Option (List String × St)
  | [], st => some ([], st)
  | n :: rest, st =>
    match sub n st with
    | none => none
    | some (r, st') =>
      let addrs := aAddresses r.answer
      if addrs = [] then gluelessLoop sub rest st' else some (addrs, st')

/-- Lines 202-208: cache the referral's NS set under the authority zone's
name — the name of the FIRST authority rrset — when that key is absent. -/
def zoneWriteSt (q : Name × RType) (az : RRset) (auth : List RRset) (st : St) : St :=
  if cacheGet st.cache (az.name, RType.NS) = none then
    stPut st (az.name, RType.NS) { makeResponse q with answer := auth }
  else st

/-- Lines 166-238: classify one received response.  `key` is the original
`cache_key`, `current` the current target of the outer loop.  `.retn`
models a `return` (the cache write having been executed), `.redirect` a
`found_next = True; break` with the new target and nameserver set,
`.cont` a fall-through to the next nameserver, `.exc` an exception raised
while classifying, caught by the `except Exception` of line 240. -/
def classify (sub : Sub) (key : CacheKey) (qtype : RType) (current : Name)
    (resp : Response) (st : St) : Option (AttemptRes × St) :=
  let q := (current, qtype)
  if resp.answer = [] then
    match resp.authority with
    | [] => some (.cont, st)
    | az :: _ =>
      let names := nsTargets resp.authority
      if names = [] then
        some (.retn resp, stPut st key resp)
      else
        let st1 := zoneWriteSt q az resp.authority st
        match glueLoop q resp.additional st1 with
        | (st2, .error _) => some (.exc, st2)
        | (st2, .ok newNS) =>
          if newNS = [] then
            match gluelessLoop sub names st2 with
            | none => none
            | some (newNS2, st3) =>
              if newNS2 = [] then some (.cont, st3)
              else some (.redirect current newNS2, st3)
          else some (.redirect current newNS, st2)
  else
    if qtype = RType.CNAME then
      if hasCnameRRset resp.answer then
        some (.retn resp, stPut st key resp)
      else
        some (.retn (makeResponse q), stPut st key (makeResponse q))
    else
      match firstCnameRRset resp.answer with
      | some rr =>
        match rr.rdatas with
        | [] => some (.exc, st)
        | rd :: _ => some (.redirect rd.target ROOT_SERVERS, st)
      | none => some (.retn resp, stPut st key resp)

/-- Result of one full pass over the current nameserver list. -/
inductive LoopRes
  | found (r : Response)
  | next (current : Name) (ns : List String)
  | exhausted
deriving DecidableEq, Repr

/-- Lines 155-241: try each nameserver in order.  Every `dns.query.udp`
call is traced; a timeout/error, a `.cont` classification or a swallowed
exception advances to the next candidate. -/
def nsLoop (sub : Sub) (net : Net) (key : CacheKey) (qtype : RType)
    (current : Name) : List String → St → Option (LoopRes × St)
  | [], st => some (.exhausted, st)
  | addr :: rest, st =>
    let st1 := stRecv st addr (current, qtype)
    match net st.clock with
    | none => nsLoop sub net key qtype current rest st1
    | some resp =>
      match classify sub key qtype current resp st1 with
      | none => none
      | some (.retn r, st2) => some (.found r, st2)
      | some (.redirect cur ns, st2) => some (.next cur ns, st2)
      | some (.cont, st2) => nsLoop sub net key qtype current rest st2
      | some (.exc, st2) => nsLoop sub net key qtype current rest st2

/-- Lines 152-246: the `while True` loop.  On exhaustion of a cycle,
synthesize an empty response for the current query, cache it under the
original key and return it (lines 243-246). -/
def lookupGo (sub : Sub) (net : Net) : Nat → CacheKey → RType → Name →
    List String → St → Option (Response × St)
  | 0, _, _, _, _, _ => none
  | fuel + 1, key, qtype, current, ns, st =>
    match nsLoop sub net key qtype current ns st with
    | none => none
    | some (.found r, st') => some (r, st')
    | some (.next cur ns', st') => lookupGo sub net fuel key qtype cur ns' st'
    | some (.exhausted, st') =>
      let r := makeResponse (current, qtype)
      some (r, stPut st' key r)

/-- Lines 106-246: `lookup`.  Serve from cache when the key is present
(lines 116-117); otherwise locate the starting nameserver set and run the
iterative loop.  Nested glueless resolutions re-enter `lookup` at type A
with one unit less fuel. -/
def lookup (net : Net) : Nat → Name → RType → St → Option (Response × St)
  | 0, _, _, _ => none
  | fuel + 1, target, qtype, st =>
    let key : CacheKey := (target, qtype)
    match cacheGet st.cache key with
    | some r => some (r, st)
    | none =>
      lookupGo (fun n st' => lookup net fuel n RType.A st') net fuel
        key qtype target (initialNS st.cache target) st

/-- Lines 53-61: the first rdata (rrsets scanned in order, rdatas in order)
whose rdtype is CNAME; its target. -/
def findCnameStep : List RRset → Option Name
  | [] => none
  | rr :: rest =>
    match rr.rdatas.findSome?
      (fun rd => if rd.rdtype = RType.CNAME then some rd.target else none) with
    | some t => some t
    | none => findCnameStep rest

/-- One recorded alias step: the dict `{"name": target, "alias": current}`
appended at line 56 (`aliasName` renders the "alias" entry). -/
structure CnameStep where
  name : Name
  aliasName : Name
deriving DecidableEq, Repr

/-- Lines 49-64: follow CNAME answers, recording each step, until a lookup
returns no CNAME record; yields the steps, the terminal name and the final
state.  `cfuel` bounds the unbounded `while True`. -/
def chaseLoop (net : Net) (lfuel : Nat) : Nat → Name → St →
    Option (List CnameStep × Name × St)
  | 0, _, _ => none
  | cfuel + 1, current, st =>
    match lookup net lfuel current RType.CNAME st with
    | none => none
    | some (r, st') =>
      match findCnameStep r.answer with
      | some tgt =>
        match chaseLoop net lfuel cfuel tgt st' with
        | none => none
        | some (steps, fin, st'') => some (⟨tgt, current⟩ :: steps, fin, st'')
      | none => some ([], current, st')

/-- An A/AAAA presentation record (lines 76 and 85). -/
structure AddrEntry where
  name : Name
  address : String
deriving DecidableEq, Repr

/-- An MX presentation record (lines 94-96). -/
structure MxEntry where
  name : Name
  preference : Nat
  exchange : String
deriving DecidableEq, Repr

/-- Lines 72-76 / 81-85: flatten the answer section into address records of
the given type, keyed by the owning rrset's name. -/
def extractAddrs (t : RType) : List RRset → List AddrEntry
  | [] => []
  | rr :: rest =>
    rr.rdatas.filterMap
      (fun rd => if rd.rdtype = t then some ⟨rr.name, rd.address⟩ else none)
      ++ extractAddrs t rest

/-- Lines 90-96: flatten the answer section into MX records. -/
def extractMx : List RRset → List MxEntry
  | [] => []
  | rr :: rest =>
    rr.rdatas.filterMap
      (fun rd =>
        if rd.rdtype = RType.MX then
          some ⟨rr.name, rd.preference, nameStr rd.exchange⟩
        else none)
      ++ extractMx rest

/-- The aggregate result of `collect_results`. -/
structure FullResponse where
  cname : List CnameStep
  a : List AddrEntry
  aaaa : List AddrEntry
  mx : List MxEntry
deriving DecidableEq, Repr

/-- Lines 36-103: `collect_results` — chase the CNAME chain, then look up
A, AAAA and MX against the terminal name and flatten the answers. -/
def collect_results (net : Net) (lfuel cfuel : Nat) (name : Name) (st : St) :
    Option (FullResponse × St) :=
  match chaseLoop net lfuel cfuel name st with
  | none => none
  | some (cnames, fin, st1) =>
    match lookup net lfuel fin RType.A st1 with
    | none => none
    | some (ra, st2) =>
      match lookup net lfuel fin RType.AAAA st2 with
      | none => none
      | some (r4, st3) =>
        match lookup net lfuel fin RType.MX st3 with
        | none => none
        | some (rm, st4) =>
          some ({ cname := cnames,
                  a := extractAddrs RType.A ra.answer,
                  aaaa := extractAddrs RType.AAAA r4.answer,
                  mx := extractMx rm.answer }, st4)

/-! ### Spec-side reformulation of the delegation locator

`closestDelegationSpec` renders §4.2 of the specification as written:
walk the ancestor suffixes most specific first, and take the first one
whose cached NS entry resolves (through cached A records) to at least one
address, falling back to the Root Hints.  It is compared with the
code-side `initialNS` below. -/

/-- One ancestor probe of the spec's locator: the addresses the cache
yields for this ancestor's NS set, or `none` when the ancestor is unusable. -/
def ancestorHit (c : Cache) (anc : List String) : Option (List String) :=
  match cacheGet c (⟨anc⟩, RType.NS) with
  | none => none
  | some r =>
    let addrs := cachedAddrs c (nsTargets r.answer)
    if addrs = [] then none else some addrs

/-- The spec's `closestDelegation(name)`: first usable ancestor, else
Root Hints. -/
def closestDelegationSpec (c : Cache) (target : Name) : List String :=
  match (ancestorSuffixes target.labels).findSome? (ancestorHit c) with
  | some addrs => addrs
  | none => ROOT_SERVERS

/-! ### Concrete names and responses used by the scenario runs -/

def comName : Name := ⟨["com", ""]⟩
def wwwName : Name := ⟨["www", "com", ""]⟩
def nsSelfName : Name := ⟨["ns", "com", ""]⟩
def ns1Name : Name := ⟨["ns1", "com", ""]⟩
def ns2Name : Name := ⟨["ns2", "com", ""]⟩
def ns3Name : Name := ⟨["ns3", "com", ""]⟩
def aComName : Name := ⟨["a", "com", ""]⟩
def bComName : Name := ⟨["b", "com", ""]⟩
def cComName : Name := ⟨["c", "com", ""]⟩
def mailName : Name := ⟨["mail", "com", ""]⟩

/-- A response answering `(n, t)` with a single rrset of rdatas `rds`. -/
def ansResp (n : Name) (t : RType) (rds : List Rdata) : Response :=
  { question := (n, t), answer := [⟨n, t, rds⟩], authority := [], additional := [] }

/-- A response whose answer holds one CNAME rrset aliasing `n` to `tgt`,
received for the query `(n, qt)`. -/
def aliasAnswer (n tgt : Name) (qt : RType) : Response :=
  { question := (n, qt), answer := [⟨n, RType.CNAME, [Rdata.cname tgt]⟩],
    authority := [], additional := [] }

/-- A CNAME-free answer for the query `(m, qt)`: one A rrset. -/
def plainAAnswer (m : Name) (qt : RType) (addr : String) : Response :=
  { question := (m, qt), answer := [⟨m, RType.A, [Rdata.a addr]⟩],
    authority := [], additional := [] }

/-! ### C1 scenario: a nested lookup's cache entry is overwritten

`lookup (ns.com., A)` receives a glueless referral whose only NS target is
`ns.com.` itself; the nested lookup caches an answer for `(ns.com., A)`,
and the outer lookup's terminal write then replaces it with a different
answer. -/

def c1referral : Response :=
  { question := (nsSelfName, RType.A), answer := [],
    authority := [⟨comName, RType.NS, [Rdata.ns nsSelfName]⟩], additional := [] }

def c1answer1 : Response := ansResp nsSelfName RType.A [Rdata.a "1.1.1.1"]

def c1answer2 : Response := ansResp nsSelfName RType.A [Rdata.a "2.2.2.2"]

def c1net : Net := fun k =>
  if k = 0 then some c1referral
  else if k = 1 then some c1answer1
  else if k = 2 then some c1answer2
  else none

/-- The NS entry the referral caches for zone `com.` (lines 205-208). -/
def c1zoneResp : Response :=
  { question := (nsSelfName, RType.A), answer := c1referral.authority,
    authority := [], additional := [] }

def c1run : Option (Response × St) := lookup c1net 10 nsSelfName RType.A St0

def c1writes : List (CacheKey × Response) :=
  match c1run with
  | some p => p.2.writes
  | none => []

def c1finalCache : Option Response :=
  match c1run with
  | some p => cacheGet p.2.cache (nsSelfName, RType.A)
  | none => none

/-! ### C2 scenario: a response with empty answer and empty authority -/

def c2empty : Response :=
  { question := (wwwName, RType.A), answer := [], authority := [], additional := [] }

def c2answer : Response := ansResp wwwName RType.A [Rdata.a "3.3.3.3"]

def c2net : Net := fun k =>
  if k = 0 then some c2empty else if k = 1 then some c2answer else none

def c2run : Option (Response × St) := lookup c2net 5 wwwName RType.A St0

def c2result : Option Response :=
  match c2run with
  | some p => some p.1
  | none => none

def c2traceLen : Nat :=
  match c2run with
  | some p => p.2.trace.length
  | none => 0

/-! ### C4 scenario net: CNAME answer, then a terminal answer for the alias -/

def c4net (n tgt : Name) (qt : RType) (addr : String) : Net := fun k =>
  if k = 0 then some (aliasAnswer n tgt qt)
  else if k = 1 then some (plainAAnswer tgt qt addr)
  else none

/-- The first Root Hints address: the server a fresh delegation walk
contacts first. -/
def rootHead : String := "198.41.0.4"

/-! ### C5 scenarios: a referral with glue, and a glueless referral -/

def c5referralGlue : Response :=
  { question := (wwwName, RType.A), answer := [],
    authority := [⟨comName, RType.NS, [Rdata.ns ns1Name]⟩],
    additional := [⟨ns1Name, RType.A, [Rdata.a "5.5.5.5"]⟩] }

def c5referralNoGlue : Response :=
  { question := (wwwName, RType.A), answer := [],
    authority := [⟨comName, RType.NS,
      [Rdata.ns ns1Name, Rdata.ns ns2Name, Rdata.ns ns3Name]⟩],
    additional := [] }

/-- A response carrying no address records (SOA-only authority). -/
def c5soaResp : Response :=
  { question := (ns1Name, RType.A), answer := [],
    authority := [⟨comName, RType.SOA, [Rdata.soa]⟩], additional := [] }

def c5ns2Answer : Response := ansResp ns2Name RType.A [Rdata.a "9.9.9.9"]

/-- Lines 210-212, spec-side: the glue addresses an additional section
supplies — the first rdata's address of each A-typed rrset, in order;
`none` when an A-typed rrset is empty (the IndexError case). -/
def glueAddrs : List RRset → Option (List String)
  | [] => some []
  | rr :: rest =>
    if rr.rdtype = RType.A then
      match rr.rdatas with
      | [] => none
      | rd :: _ =>
        match glueAddrs rest with
        | some l => some (rd.address :: l)
        | none => none
    else glueAddrs rest

/-- A nested-lookup stand-in returning a fixed A answer, state unchanged. -/
def subA : Sub := fun _ st => some (c5ns2Answer, st)

/-- The state after the zone-NS write of the glueless referral scenario. -/
def c5zoneSt : St :=
  zoneWriteSt (wwwName, RType.A)
    ⟨comName, RType.NS, [Rdata.ns ns1Name, Rdata.ns ns2Name, Rdata.ns ns3Name]⟩
    c5referralNoGlue.authority St0

/-! ### C9 scenario nets: a CNAME chain A → B → C, and a chain-free name,
parameterized over the names, addresses and MX data -/

/-- A CNAME query for `n` answered with a CNAME-free answer section (one A
rrset), which terminates the chase. -/
def c9termP (n : Name) (ad : String) : Response :=
  { question := (n, RType.CNAME),
    answer := [⟨n, RType.A, [Rdata.a ad]⟩],
    authority := [], additional := [] }

/-- The network of the chain scenario: CNAME answers A → B and B → C, a
chase-terminating response for C, then A/AAAA/MX answers for C. -/
def c9chainNet (A B C M : Name) (ad1 ad2 : String) (p : Nat) : Net := fun k =>
  if k = 0 then some (ansResp A RType.CNAME [Rdata.cname B])
  else if k = 1 then some (ansResp B RType.CNAME [Rdata.cname C])
  else if k = 2 then some (c9termP C ad1)
  else if k = 3 then some (ansResp C RType.A [Rdata.a ad1])
  else if k = 4 then some (ansResp C RType.AAAA [Rdata.aaaa ad2])
  else if k = 5 then some (ansResp C RType.MX [Rdata.mx p M])
  else none

/-- The network of the chain-free scenario: the first CNAME query already
returns no CNAME record. -/
def c9plainNetP (A M : Name) (ad1 ad2 : String) (p : Nat) : Net := fun k =>
  if k = 0 then some (c9termP A ad1)
  else if k = 1 then some (ansResp A RType.A [Rdata.a ad1])
  else if k = 2 then some (ansResp A RType.AAAA [Rdata.aaaa ad2])
  else if k = 3 then some (ansResp A RType.MX [Rdata.mx p M])
  else none

/-- The aggregate result the chain scenario must produce: the alias steps
(A, B) then (B, C) in order — stored as (name := target, alias := source)
dicts — and the three terminal records owned by C. -/
def c9chainExpectedP (A B C M : Name) (ad1 ad2 : String) (p : Nat) : FullResponse :=
  { cname := [⟨B, A⟩, ⟨C, B⟩],
    a := [⟨C, ad1⟩], aaaa := [⟨C, ad2⟩], mx := [⟨C, p, nameStr M⟩] }

/-- The aggregate result of the chain-free scenario: no alias steps, all
terminal records owned by the queried name itself. -/
def c9plainExpectedP (A M : Name) (ad1 ad2 : String) (p : Nat) : FullResponse :=
  { cname := [], a := [⟨A, ad1⟩], aaaa := [⟨A, ad2⟩], mx := [⟨A, p, nameStr M⟩] }

/-- A response whose answer holds a CNAME-typed rrset with no rdatas:
classifying it for a non-CNAME query evaluates `answer[0]` on an empty
rrset and raises (line 182). -/
def c10excResp : Response :=
  { question := (aComName, RType.A), answer := [⟨aComName, RType.CNAME, []⟩],
    authority := [], additional := [] }

/-- A nested-lookup stand-in that always runs out of fuel. -/
def subNone : Sub := fun _ _ => none

/-! ### Helper lemmas -/

theorem cacheGet_cacheSet_self (c : Cache) (k : CacheKey) (v : Response) :
    cacheGet (cacheSet c k v) k = some v := by
  induction c with
  | nil => simp [cacheSet, cacheGet]
  | cons p rest ih =>
    by_cases h : k = p.1
    · simp [cacheSet, cacheGet, h]
    · simp [cacheSet, cacheGet, h, ih]

theorem cacheGet_stPut_self (st : St) (k : CacheKey) (v : Response) :
    cacheGet (stPut st k v).cache k = some v := by
  simp [stPut, cacheGet_cacheSet_self]

theorem findNS_nil (l : List (List String)) : findNS [] l = none := by
  induction l with
  | nil => rfl
  | cons a t ih => simp [findNS, cacheGet, ih]

theorem initialNS_nil (target : Name) : initialNS [] target = ROOT_SERVERS := by
  simp [initialNS, findNS_nil]

theorem findNS_some_ne_nil (c : Cache) (l : List (List String)) (a : List String)
    (h : findNS c l = some a) : a ≠ [] := by
  induction l with
  | nil => simp [findNS] at h
  | cons x t ih =>
    rw [findNS] at h
    rcases hc : cacheGet c (⟨x⟩, RType.NS) with _ | r
    · rw [hc] at h; exact ih h
    · rw [hc] at h
      by_cases hz : cachedAddrs c (nsTargets r.answer) = []
      · simp [hz] at h; exact ih h
      · simp [hz] at h; subst h; exact hz

theorem initialNS_ne_nil (c : Cache) (target : Name) : initialNS c target ≠ [] := by
  unfold initialNS
  rcases h : findNS c (ancestorSuffixes target.labels) with _ | a
  · simp [ROOT_SERVERS]
  · simpa using findNS_some_ne_nil c _ a h

/-- With a network on which every transport call fails, a pass over any
nameserver list ends exhausted, leaving the cache untouched. -/
theorem nsLoop_dead (sub : Sub) (net : Net) (hdead : ∀ k, net k = none)
    (key : CacheKey) (qt : RType) (cur : Name) (ns : List String) (st : St) :
    ∃ st', nsLoop sub net key qt cur ns st = some (.exhausted, st') ∧
      st'.cache = st.cache := by
  induction ns generalizing st with
  | nil => exact ⟨st, rfl, rfl⟩
  | cons a rest ih =>
    rcases ih (stRecv st a (cur, qt)) with ⟨st', h1, h2⟩
    exact ⟨st', by simp [nsLoop, hdead, h1], by simp [h2, stRecv]⟩

/-- The code-side ancestor walk agrees with a `findSome?` over the
spec-side per-ancestor probe. -/
theorem findNS_eq_findSome (c : Cache) (l : List (List String)) :
    findNS c l = l.findSome? (ancestorHit c) := by
  induction l with
  | nil => rfl
  | cons a t ih =>
    rw [findNS, List.findSome?]
    rcases hc : cacheGet c (⟨a⟩, RType.NS) with _ | r
    · have hhit : ancestorHit c a = none := by simp only [ancestorHit, hc]
      simp [hhit, hc, ih]
    · have hhit : ancestorHit c a =
          (if cachedAddrs c (nsTargets r.answer) = [] then none
           else some (cachedAddrs c (nsTargets r.answer))) := by
        simp only [ancestorHit, hc]
      by_cases hz : cachedAddrs c (nsTargets r.answer) = [] <;>
        simp [hhit, hc, hz, ih]

/-! ### Claim theorems -/

/-- C1, counterexample: first-writer-wins fails on the code.  In the
scenario where `lookup (ns.com., A)` receives a glueless referral naming
`ns.com.` itself, the nested glueless lookup stores an answer for the key
`(ns.com., A)`, and the outer lookup's terminal write then replaces that
stored value with a different answer (the write log shows the key written
twice with distinct values, and the final cache holds the second one). -/
theorem c1_first_writer_wins_cex :
    c1writes = [((comName, RType.NS), c1zoneResp),
                ((nsSelfName, RType.A), c1answer1),
                ((nsSelfName, RType.A), c1answer2)] ∧
    c1answer1 ≠ c1answer2 ∧ c1finalCache = some c1answer2 :=
  ⟨by decide, by decide, by decide⟩

/-- C1, amended: a lookup whose key is already cached when it starts is
served the stored value and leaves the state (hence the cache) unchanged;
the entry check of lines 116-117 is the only first-writer protection — the
terminal cache write of a lookup is unconditional. -/
theorem c1_cache_entry_check (net : Net) (fuel : Nat) (n : Name) (t : RType)
    (st : St) (r : Response) (h : cacheGet st.cache (n, t) = some r) :
    lookup net (fuel + 1) n t st = some (r, st) := by
  simp [lookup, h]

theorem c1_cache_entry_check_witness :
    cacheGet [((comName, RType.A), c2answer)] (comName, RType.A) = some c2answer ∧
    lookup (fun _ => none) 1 comName RType.A
      { St0 with cache := [((comName, RType.A), c2answer)] } =
      some (c2answer, { St0 with cache := [((comName, RType.A), c2answer)] }) :=
  ⟨by decide, c1_cache_entry_check _ 0 _ _ _ _ (by decide)⟩

/-- C2, counterexample: a response with an entirely empty authority section
(and no answer) is not treated as terminal — the engine advances to the
next nameserver, whose answer is what gets returned and cached, rather
than the empty response as-is. -/
theorem c2_empty_authority_cex :
    c2result = some c2answer ∧ c2answer ≠ c2empty ∧ c2traceLen = 2 :=
  ⟨by decide, by decide, by decide⟩

/-- C2, amended: a response with no answer records and a NON-empty
authority section containing no NS records is terminal: it is cached under
the original (name, type) key and returned as-is.  (A response with both
answer and authority sections empty is instead skipped like a failed
attempt.) -/
theorem c2_terminal_empty (net : Net) (fuel : Nat) (n : Name) (t : RType)
    (st : St) (resp : Response)
    (hmiss : cacheGet st.cache (n, t) = none)
    (hnet : net st.clock = some resp)
    (hans : resp.answer = [])
    (hauth : resp.authority ≠ [])
    (hns : nsTargets resp.authority = []) :
    ∃ st', lookup net (fuel + 2) n t st = some (resp, st') ∧
      cacheGet st'.cache (n, t) = some resp := by
  rcases hstart : initialNS st.cache n with _ | ⟨a, rest⟩
  · exact absurd hstart (initialNS_ne_nil st.cache n)
  · rcases hA : resp.authority with _ | ⟨az, tl⟩
    · exact absurd hA hauth
    · refine ⟨stPut (stRecv st a (n, t)) (n, t) resp, ?_, cacheGet_stPut_self _ _ _⟩
      rw [hA] at hns
      have h2 : (fuel + 2) = (fuel + 1) + 1 := rfl
      rw [h2]
      simp [lookup, hmiss, hstart, lookupGo, nsLoop, hnet, classify, hans, hA, hns]

theorem c2_terminal_empty_witness :
    cacheGet St0.cache (ns1Name, RType.A) = none ∧
    (∃ st', lookup (fun _ => some c5soaResp) (0 + 2) ns1Name RType.A St0 =
        some (c5soaResp, st') ∧
      cacheGet st'.cache (ns1Name, RType.A) = some c5soaResp) :=
  ⟨rfl, c2_terminal_empty (fun _ => some c5soaResp) 0 ns1Name RType.A St0 c5soaResp
    rfl rfl rfl (by decide) (by decide)⟩

/-- C3: on a network where every transport attempt fails, a cache-missing
lookup terminates with a synthesized empty response (no answer records),
cached under the original (name, type) key and returned. -/
theorem c3_exhaustion_fallback (fuel : Nat) (n : Name) (t : RType) (st : St)
    (hmiss : cacheGet st.cache (n, t) = none) :
    ∃ st', lookup (fun _ => none) (fuel + 2) n t st =
        some (makeResponse (n, t), st') ∧
      (makeResponse (n, t)).answer = [] ∧
      cacheGet st'.cache (n, t) = some (makeResponse (n, t)) := by
  have h2 : (fuel + 2) = (fuel + 1) + 1 := rfl
  rw [h2]
  have hunfold : lookup (fun _ => none) ((fuel + 1) + 1) n t st =
      lookupGo (fun m st' => lookup (fun _ => none) (fuel + 1) m RType.A st')
        (fun _ => none) (fuel + 1) (n, t) t n (initialNS st.cache n) st := by
    simp [lookup, hmiss]
  rw [hunfold]
  obtain ⟨st', h1, -⟩ :=
    nsLoop_dead (fun m st' => lookup (fun _ => none) (fuel + 1) m RType.A st')
      (fun _ => none) (fun _ => rfl) (n, t) t n (initialNS st.cache n) st
  refine ⟨stPut st' (n, t) (makeResponse (n, t)), ?_, rfl, cacheGet_stPut_self _ _ _⟩
  simp [lookupGo, h1]

theorem c3_exhaustion_fallback_witness :
    cacheGet St0.cache (wwwName, RType.A) = none ∧
    (∃ st', lookup (fun _ => none) (0 + 2) wwwName RType.A St0 =
        some (makeResponse (wwwName, RType.A), st') ∧
      (makeResponse (wwwName, RType.A)).answer = [] ∧
      cacheGet st'.cache (wwwName, RType.A) = some (makeResponse (wwwName, RType.A))) :=
  ⟨rfl, c3_exhaustion_fallback 0 wwwName RType.A St0 rfl⟩

/-- C4: for a non-CNAME query answered first with a CNAME record, the
engine retargets to the alias target and restarts from the Root Hints (the
second traced query is for the alias target, sent to the first root
server), and the eventual terminal answer is cached under the original
(name, type) key — not under the alias target's key. -/
theorem c4_implicit_alias_restart (n tgt : Name) (qt : RType) (addr : String)
    (hq : qt ≠ RType.CNAME) (hneq : tgt ≠ n) :
    ∃ stF, lookup (c4net n tgt qt addr) 5 n qt St0 =
        some (plainAAnswer tgt qt addr, stF) ∧
      stF.trace = [(rootHead, n, qt), (rootHead, tgt, qt)] ∧
      cacheGet stF.cache (n, qt) = some (plainAAnswer tgt qt addr) ∧
      cacheGet stF.cache (tgt, qt) = none := by
  simp [lookup, St0, cacheGet, initialNS_nil, ROOT_SERVERS, lookupGo, nsLoop, stRecv,
    c4net, classify, aliasAnswer, plainAAnswer, hq, firstCnameRRset, stPut, cacheSet,
    rootHead, Rdata.target, hneq, Prod.ext_iff]

theorem c4_implicit_alias_restart_witness :
    RType.A ≠ RType.CNAME ∧ bComName ≠ aComName ∧
    (∃ stF, lookup (c4net aComName bComName RType.A "7.7.7.7") 5 aComName RType.A St0 =
        some (plainAAnswer bComName RType.A "7.7.7.7", stF) ∧
      stF.trace = [(rootHead, aComName, RType.A), (rootHead, bComName, RType.A)] ∧
      cacheGet stF.cache (aComName, RType.A) =
        some (plainAAnswer bComName RType.A "7.7.7.7") ∧
      cacheGet stF.cache (bComName, RType.A) = none) :=
  ⟨by decide, by decide,
    c4_implicit_alias_restart aComName bComName RType.A "7.7.7.7" (by decide) (by decide)⟩

/-- With a well-formed glue section (no empty A rrset), `glueLoop` collects
exactly the spec-side glue addresses, whatever the prior state. -/
theorem glueLoop_ok (q : Name × RType) (l : List RRset) (addrs : List String)
    (h : glueAddrs l = some addrs) (st : St) :
    ∃ st', glueLoop q l st = (st', Except.ok addrs) := by
  induction l generalizing addrs st with
  | nil =>
    simp [glueAddrs] at h
    subst h
    exact ⟨st, rfl⟩
  | cons rr rest ih =>
    by_cases hA : rr.rdtype = RType.A
    · rcases hrd : rr.rdatas with _ | ⟨rd, rds⟩
      · simp [glueAddrs, hA, hrd] at h
      · rcases hrec : glueAddrs rest with _ | l'
        · simp [glueAddrs, hA, hrd, hrec] at h
        · simp [glueAddrs, hA, hrd, hrec] at h
          subst h
          obtain ⟨st'', hgl⟩ := ih l' hrec
            (if cacheGet st.cache (rr.name, RType.A) = none then
              stPut st (rr.name, RType.A) { makeResponse q with answer := [rr] }
             else st)
          exact ⟨st'', by simp [glueLoop, hA, hrd, hgl]⟩
    · simp [glueAddrs, hA] at h
      obtain ⟨st', hgl⟩ := ih addrs h st
      exact ⟨st', by simp [glueLoop, hA, hgl]⟩

/-- An additional section with no glue A address (no A-typed rrset) leaves
`glueLoop` with no addresses, no writes. -/
theorem glueLoop_noGlue (q : Name × RType) (l : List RRset)
    (h : glueAddrs l = some []) (st : St) :
    glueLoop q l st = (st, Except.ok []) := by
  induction l generalizing st with
  | nil => rfl
  | cons rr rest ih =>
    by_cases hA : rr.rdtype = RType.A
    · exfalso
      rcases hrd : rr.rdatas with _ | ⟨rd, rds⟩
      · simp [glueAddrs, hA, hrd] at h
      · rcases hrec : glueAddrs rest with _ | l' <;>
          simp [glueAddrs, hA, hrd, hrec] at h
    · simp [glueAddrs, hA] at h
      simp [glueLoop, hA, ih h]

/-- A referral with NS targets and at least one glue address classifies to
a redirect carrying exactly the glue addresses, with a final state
independent of the nested-lookup function. -/
theorem classify_referral_glue (key : CacheKey) (qt : RType) (cur : Name)
    (st : St) (resp : Response) (addrs : List String)
    (hans : resp.answer = [])
    (hns : nsTargets resp.authority ≠ [])
    (hglue : glueAddrs resp.additional = some addrs)
    (haddrs : addrs ≠ []) :
    ∃ st2, ∀ sub : Sub, classify sub key qt cur resp st =
      some (AttemptRes.redirect cur addrs, st2) := by
  rcases hA : resp.authority with _ | ⟨az, tl⟩
  · rw [hA] at hns
    simp [nsTargets] at hns
  · rw [hA] at hns
    obtain ⟨st2, hgl⟩ := glueLoop_ok (cur, qt) resp.additional addrs hglue
      (zoneWriteSt (cur, qt) az (az :: tl) st)
    refine ⟨st2, fun sub => ?_⟩
    unfold classify
    simp [hans, hA, hns, hgl, haddrs]

/-- C5: universally over every referral response containing NS records —
(i) when its additional section supplies at least one glue A address, the
engine redirects with exactly those addresses and the outcome does not
depend on the nested-lookup function at all (no nested address lookup is
issued); (ii) the nested resolution of NS targets stops at the first
target whose lookup yields at least one address, and skips targets that
yield none; (iii) when no glue A record yields any address, the engine's
outcome is exactly the outcome of the nested lookups over the NS targets,
installing the first discovered non-empty address set. -/
theorem c5_referral_glue_preference :
    (∀ (sub sub' : Sub) (key : CacheKey) (qt : RType) (cur : Name) (st : St)
        (resp : Response) (addrs : List String),
      resp.answer = [] →
      nsTargets resp.authority ≠ [] →
      glueAddrs resp.additional = some addrs →
      addrs ≠ [] →
      (∃ st2, classify sub key qt cur resp st =
        some (AttemptRes.redirect cur addrs, st2)) ∧
      classify sub key qt cur resp st = classify sub' key qt cur resp st) ∧
    (∀ (sub : Sub) (n : Name) (rest : List Name) (st : St) (r : Response) (st' : St),
      sub n st = some (r, st') →
      (aAddresses r.answer ≠ [] →
        gluelessLoop sub (n :: rest) st = some (aAddresses r.answer, st')) ∧
      (aAddresses r.answer = [] →
        gluelessLoop sub (n :: rest) st = gluelessLoop sub rest st')) ∧
    (∀ (sub : Sub) (key : CacheKey) (qt : RType) (cur : Name) (st st1 : St)
        (resp : Response) (az : RRset) (tl : List RRset),
      resp.answer = [] →
      resp.authority = az :: tl →
      nsTargets resp.authority ≠ [] →
      glueAddrs resp.additional = some [] →
      st1 = zoneWriteSt (cur, qt) az resp.authority st →
      classify sub key qt cur resp st =
        (match gluelessLoop sub (nsTargets resp.authority) st1 with
         | none => none
         | some (newNS2, st3) =>
           if newNS2 = [] then some (AttemptRes.cont, st3)
           else some (AttemptRes.redirect cur newNS2, st3))) := by
  refine ⟨?_, ?_, ?_⟩
  · intro sub sub' key qt cur st resp addrs hans hns hglue haddrs
    obtain ⟨st2, hall⟩ := classify_referral_glue key qt cur st resp addrs
      hans hns hglue haddrs
    exact ⟨⟨st2, hall sub⟩, (hall sub).trans (hall sub').symm⟩
  · intro sub n rest st r st' hsub
    constructor <;> intro hadd <;> simp [gluelessLoop, hsub, hadd]
  · intro sub key qt cur st st1 resp az tl hans hA hns hglue hst1
    subst hst1
    rw [hA] at hns
    unfold classify
    simp [hans, hA, hns, glueLoop_noGlue _ _ hglue]

theorem c5_referral_glue_preference_witness :
    ((∃ st2, classify subNone (wwwName, RType.A) RType.A wwwName c5referralGlue St0 =
        some (AttemptRes.redirect wwwName ["5.5.5.5"], st2)) ∧
      classify subNone (wwwName, RType.A) RType.A wwwName c5referralGlue St0 =
        classify subA (wwwName, RType.A) RType.A wwwName c5referralGlue St0) ∧
    gluelessLoop subA (ns2Name :: [ns3Name]) St0 =
      some (aAddresses c5ns2Answer.answer, St0) ∧
    classify subA (wwwName, RType.A) RType.A wwwName c5referralNoGlue St0 =
      (match gluelessLoop subA (nsTargets c5referralNoGlue.authority) c5zoneSt with
       | none => none
       | some (newNS2, st3) =>
         if newNS2 = [] then some (AttemptRes.cont, st3)
         else some (AttemptRes.redirect wwwName newNS2, st3)) :=
  ⟨c5_referral_glue_preference.1 subNone subA (wwwName, RType.A) RType.A wwwName St0
      c5referralGlue ["5.5.5.5"] rfl (by decide) (by decide) (by decide),
    (c5_referral_glue_preference.2.1 subA ns2Name [ns3Name] St0 c5ns2Answer St0 rfl).1
      (by decide),
    c5_referral_glue_preference.2.2 subA (wwwName, RType.A) RType.A wwwName St0
      c5zoneSt c5referralNoGlue
      ⟨comName, RType.NS, [Rdata.ns ns1Name, Rdata.ns ns2Name, Rdata.ns ns3Name]⟩ []
      rfl rfl (by decide) (by decide) rfl⟩

/-- C6: for a CNAME query whose response has a non-empty answer section,
the lookup is terminal either way: with a CNAME rrset present the response
is cached and returned as-is, otherwise a synthesized empty response is
cached and returned; in both cases exactly one transport call is made, so
no alias is followed. -/
theorem c6_cname_terminality (net : Net) (fuel : Nat) (n : Name) (st : St)
    (resp : Response)
    (hmiss : cacheGet st.cache (n, RType.CNAME) = none)
    (hnet : net st.clock = some resp)
    (hans : resp.answer ≠ []) :
    (hasCnameRRset resp.answer = true →
      ∃ st', lookup net (fuel + 2) n RType.CNAME st = some (resp, st') ∧
        cacheGet st'.cache (n, RType.CNAME) = some resp ∧
        st'.trace.length = st.trace.length + 1) ∧
    (hasCnameRRset resp.answer = false →
      ∃ st', lookup net (fuel + 2) n RType.CNAME st =
          some (makeResponse (n, RType.CNAME), st') ∧
        cacheGet st'.cache (n, RType.CNAME) = some (makeResponse (n, RType.CNAME)) ∧
        st'.trace.length = st.trace.length + 1) := by
  have h2 : (fuel + 2) = (fuel + 1) + 1 := rfl
  rcases hstart : initialNS st.cache n with _ | ⟨a, rest⟩
  · exact absurd hstart (initialNS_ne_nil st.cache n)
  constructor <;> intro hcn
  · refine ⟨stPut (stRecv st a (n, RType.CNAME)) (n, RType.CNAME) resp, ?_,
      cacheGet_stPut_self _ _ _, by simp [stPut, stRecv]⟩
    rw [h2]
    simp [lookup, hmiss, hstart, lookupGo, nsLoop, hnet, classify, hans, hcn]
  · refine ⟨stPut (stRecv st a (n, RType.CNAME)) (n, RType.CNAME)
        (makeResponse (n, RType.CNAME)), ?_,
      cacheGet_stPut_self _ _ _, by simp [stPut, stRecv]⟩
    rw [h2]
    simp [lookup, hmiss, hstart, lookupGo, nsLoop, hnet, classify, hans, hcn]

theorem c6_cname_terminality_witness :
    ∃ st', lookup (fun _ => some (ansResp aComName RType.CNAME [Rdata.cname bComName]))
        (0 + 2) aComName RType.CNAME St0 =
      some (ansResp aComName RType.CNAME [Rdata.cname bComName], st') ∧
      cacheGet st'.cache (aComName, RType.CNAME) =
        some (ansResp aComName RType.CNAME [Rdata.cname bComName]) ∧
      st'.trace.length = St0.trace.length + 1 :=
  (c6_cname_terminality (fun _ => some (ansResp aComName RType.CNAME [Rdata.cname bComName]))
    0 aComName St0 (ansResp aComName RType.CNAME [Rdata.cname bComName])
    rfl rfl (by decide)).1 (by decide)

/-- C7: the nameserver set is never replaced by an empty one — every
`.redirect` outcome of response classification carries a non-empty
nameserver list (the Root Hints on an implicit alias, or a referral's
non-empty address list) — and the initial set of every cache-missing
lookup is non-empty (the locator's addresses or the Root Hints), so every
query cycle runs against a non-empty set. -/
theorem c7_nonempty_nameservers :
    (∀ (sub : Sub) (key : CacheKey) (qt : RType) (cur : Name) (resp : Response)
        (st : St) (res : AttemptRes) (st' : St),
      classify sub key qt cur resp st = some (res, st') →
      ∀ (c : Name) (ns : List String), res = AttemptRes.redirect c ns → ns ≠ []) ∧
    (∀ (c : Cache) (target : Name), initialNS c target ≠ []) := by
  constructor
  · intro sub key qt cur resp st res st' h c ns hres hnil
    subst hres
    subst hnil
    unfold classify at h
    iterate 10 (all_goals (try first | split at h | simp_all [ROOT_SERVERS]))
  · exact initialNS_ne_nil

theorem c7_nonempty_nameservers_witness :
    ROOT_SERVERS ≠ [] ∧ initialNS [] wwwName ≠ [] :=
  ⟨c7_nonempty_nameservers.1 subNone (aComName, RType.A) RType.A aComName
      (aliasAnswer aComName bComName RType.A) St0
      (AttemptRes.redirect bComName ROOT_SERVERS) St0
      (by decide) bComName ROOT_SERVERS rfl,
    c7_nonempty_nameservers.2 [] wwwName⟩

/-- C8: the initial nameserver set of a lookup is exactly the spec's
delegation locator — the first ancestor suffix (most specific first) whose
cached NS entry resolves through cached A records to at least one address,
with the Root Hints as fallback — and a cache-missing lookup proceeds with
precisely that set. -/
theorem c8_delegation_locator :
    (∀ (c : Cache) (target : Name),
      initialNS c target = closestDelegationSpec c target) ∧
    (∀ (net : Net) (fuel : Nat) (target : Name) (qt : RType) (st : St),
      cacheGet st.cache (target, qt) = none →
      lookup net (fuel + 1) target qt st =
        lookupGo (fun m st' => lookup net fuel m RType.A st') net fuel
          (target, qt) qt target (closestDelegationSpec st.cache target) st) := by
  have key : ∀ (c : Cache) (target : Name),
      initialNS c target = closestDelegationSpec c target := by
    intro c target
    unfold initialNS closestDelegationSpec
    rw [findNS_eq_findSome]
  refine ⟨key, ?_⟩
  intro net fuel target qt st hmiss
  simp [lookup, hmiss, key]

theorem c8_delegation_locator_witness :
    lookup (fun _ => none) 1 wwwName RType.A St0 =
      lookupGo (fun m st' => lookup (fun _ => none) 0 m RType.A st') (fun _ => none) 0
        (wwwName, RType.A) RType.A wwwName
        (closestDelegationSpec St0.cache wwwName) St0 :=
  c8_delegation_locator.2 (fun _ => none) 0 wwwName RType.A St0 (by decide)

/-- A cache none of whose keys is NS-typed answers no NS probe. -/
theorem cacheGet_no_ns (c : Cache) (hc : ∀ p ∈ c, p.1.2 ≠ RType.NS) (n : Name) :
    cacheGet c (n, RType.NS) = none := by
  induction c with
  | nil => rfl
  | cons p rest ih =>
    have hp := hc p (by simp)
    have hne : (n, RType.NS) ≠ p.1 := by
      intro he
      exact hp (by rw [← he])
    simp [cacheGet, hne]
    exact ih (fun q hq => hc q (by simp [hq]))

theorem findNS_of_no_ns (c : Cache) (hc : ∀ p ∈ c, p.1.2 ≠ RType.NS)
    (l : List (List String)) : findNS c l = none := by
  induction l with
  | nil => rfl
  | cons a t ih => simp [findNS, cacheGet_no_ns c hc, ih]

/-- On a cache holding no NS entry, the delegation walk falls back to the
Root Hints, whatever the target. -/
theorem initialNS_no_ns (c : Cache) (hc : ∀ p ∈ c, p.1.2 ≠ RType.NS)
    (target : Name) : initialNS c target = ROOT_SERVERS := by
  simp [initialNS, findNS_of_no_ns c hc]

/-- C9: for every three distinct names A, B, C (and any MX data and
addresses), resolving A against the chain network — whose CNAME lookups
yield the alias chain A → B → C — makes `collect_results` record the alias
steps in order ((A, B) then (B, C), stored as (name := target, alias :=
source) dicts) and issue the terminal A/AAAA/MX lookups against C, as the
trace shows; and for every name whose first CNAME lookup returns no CNAME
record, the recorded step sequence is empty and the terminal lookups are
issued against the name itself. -/
theorem c9_cname_chain_walking (A B C M : Name) (ad1 ad2 : String) (p : Nat)
    (hAB : A ≠ B) (hAC : A ≠ C) (hBC : B ≠ C) :
    (∃ stF, collect_results (c9chainNet A B C M ad1 ad2 p) 6 5 A St0 =
        some (c9chainExpectedP A B C M ad1 ad2 p, stF) ∧
      stF.trace = [(rootHead, A, RType.CNAME), (rootHead, B, RType.CNAME),
        (rootHead, C, RType.CNAME), (rootHead, C, RType.A),
        (rootHead, C, RType.AAAA), (rootHead, C, RType.MX)]) ∧
    (∃ stF, collect_results (c9plainNetP A M ad1 ad2 p) 6 5 A St0 =
        some (c9plainExpectedP A M ad1 ad2 p, stF) ∧
      stF.trace = [(rootHead, A, RType.CNAME), (rootHead, A, RType.A),
        (rootHead, A, RType.AAAA), (rootHead, A, RType.MX)]) := by
  constructor
  · simp [collect_results, chaseLoop, lookup, lookupGo, nsLoop, classify, stRecv, stPut,
      cacheGet, cacheSet, initialNS_no_ns, ROOT_SERVERS, rootHead, c9chainNet, c9termP,
      ansResp, makeResponse, hasCnameRRset, firstCnameRRset, findCnameStep, nsTargets,
      extractAddrs, extractMx, Rdata.rdtype, Rdata.target, Rdata.address,
      Rdata.preference, Rdata.exchange, St0, c9chainExpectedP,
      hAB, hAC, hBC, Ne.symm hAB, Ne.symm hAC, Ne.symm hBC]
  · simp [collect_results, chaseLoop, lookup, lookupGo, nsLoop, classify, stRecv, stPut,
      cacheGet, cacheSet, initialNS_no_ns, ROOT_SERVERS, rootHead, c9plainNetP, c9termP,
      ansResp, makeResponse, hasCnameRRset, firstCnameRRset, findCnameStep, nsTargets,
      extractAddrs, extractMx, Rdata.rdtype, Rdata.target, Rdata.address,
      Rdata.preference, Rdata.exchange, St0, c9plainExpectedP]

theorem c9_cname_chain_walking_witness :
    (∃ stF, collect_results
        (c9chainNet aComName bComName cComName mailName "9.9.9.9" "::9" 10)
        6 5 aComName St0 =
        some (c9chainExpectedP aComName bComName cComName mailName "9.9.9.9" "::9" 10,
          stF) ∧
      stF.trace = [(rootHead, aComName, RType.CNAME), (rootHead, bComName, RType.CNAME),
        (rootHead, cComName, RType.CNAME), (rootHead, cComName, RType.A),
        (rootHead, cComName, RType.AAAA), (rootHead, cComName, RType.MX)]) ∧
    (∃ stF, collect_results (c9plainNetP aComName mailName "9.9.9.9" "::9" 10)
        6 5 aComName St0 =
        some (c9plainExpectedP aComName mailName "9.9.9.9" "::9" 10, stF) ∧
      stF.trace = [(rootHead, aComName, RType.CNAME), (rootHead, aComName, RType.A),
        (rootHead, aComName, RType.AAAA), (rootHead, aComName, RType.MX)]) :=
  c9_cname_chain_walking aComName bComName cComName mailName "9.9.9.9" "::9" 10
    (by decide) (by decide) (by decide)

/-- C10: an attempt that fails is contained — a transport timeout/error,
and likewise any classification that raises (modelled `.exc`, e.g. the
IndexError of `answer[0]` on an empty rrset), makes the nameserver loop
proceed with the remaining candidates from the post-attempt state; no
exceptional outcome escapes the loop. -/
theorem c10_exception_containment :
    ∀ (sub : Sub) (net : Net) (key : CacheKey) (qt : RType) (cur : Name)
      (addr : String) (rest : List String) (st : St),
      (net st.clock = none →
        nsLoop sub net key qt cur (addr :: rest) st =
          nsLoop sub net key qt cur rest (stRecv st addr (cur, qt))) ∧
      (∀ (resp : Response) (st2 : St), net st.clock = some resp →
        classify sub key qt cur resp (stRecv st addr (cur, qt)) =
          some (AttemptRes.exc, st2) →
        nsLoop sub net key qt cur (addr :: rest) st =
          nsLoop sub net key qt cur rest st2) := by
  intro sub net key qt cur addr rest st
  constructor
  · intro h
    simp [nsLoop, h]
  · intro resp st2 h1 h2
    simp [nsLoop, h1, h2]

theorem c10_exception_containment_witness :
    nsLoop subNone (fun _ => some c10excResp) (aComName, RType.A) RType.A aComName
      [rootHead] St0 =
    nsLoop subNone (fun _ => some c10excResp) (aComName, RType.A) RType.A aComName
      [] (stRecv St0 rootHead (aComName, RType.A)) :=
  (c10_exception_containment subNone (fun _ => some c10excResp) (aComName, RType.A)
    RType.A aComName rootHead [] St0).2 c10excResp
    (stRecv St0 rootHead (aComName, RType.A)) rfl (by decide)

end Resolve
